import Mathlib

/-
Verification development for the VirtualEye backend per-frame analysis
pipeline (src/backend/server.py). Pure fragments of the Python code are
embedded as executable Lean definitions; stateful fragments become explicit
state-passing step functions. Machine floats are modelled as rationals.
-/

namespace VirtualEye

/- ===== String helpers modelling Python str operations on ASCII data ===== -/

/-- Model of Python `pat` being a prefix of a character list. -/
def charsBegin : List Char → List Char → Bool
  | [], _ => true
  | _ :: _, [] => false
  | a :: as, b :: bs => a == b && charsBegin as bs

/-- Model of Python substring membership `pat in s` over character lists. -/
def charsContain (pat : List Char) : List Char → Bool
  | [] => charsBegin pat []
  | c :: rest => charsBegin pat (c :: rest) || charsContain pat rest

/-- Python `pat in s` on strings. -/
def strContains (s pat : String) : Bool :=
  charsContain pat.data s.data

/-- Python `s.lower()` (ASCII; inputs in this codebase are ASCII). -/
def lowerStr (s : String) : String :=
  ⟨s.data.map Char.toLower⟩

/-- Python `s.split()` with no argument: split on whitespace runs, no empties. -/
def splitWsAux (cur : List Char) : List Char → List (List Char)
  | [] => if cur.isEmpty then [] else [cur.reverse]
  | c :: rest =>
    if c.isWhitespace then
      if cur.isEmpty then splitWsAux [] rest
      else cur.reverse :: splitWsAux [] rest
    else splitWsAux (c :: cur) rest

/-- Drop leading whitespace from a character list. -/
def dropLeadingWs : List Char → List Char
  | [] => []
  | c :: rest => if c.isWhitespace then dropLeadingWs rest else c :: rest

/-- Python `s.strip()`. -/
def strTrim (s : String) : String :=
  ⟨(dropLeadingWs ((dropLeadingWs s.data).reverse)).reverse⟩

/-- Join a list of strings with a separator, Python `sep.join(parts)`. -/
def joinWith (sep : String) : List String → String
  | [] => ""
  | [x] => x
  | x :: y :: xs => x ++ sep ++ joinWith sep (y :: xs)

/-- Python `w.isalpha()`: nonempty and all alphabetic. -/
def isAlphaWord (w : List Char) : Bool :=
  !w.isEmpty && w.all Char.isAlpha

/-- Order-preserving deduplication, Python `list(dict.fromkeys(xs))`. -/
def dedupFirst (seen : List String) : List String → List String
  | [] => []
  | x :: xs => if seen.contains x then dedupFirst seen xs
               else x :: dedupFirst (seen ++ [x]) xs

/- ===== Data model: Detection (dict built in simple_detection_facts) ===== -/

/-- One detection dict as produced by simple_detection_facts in server.py.
The Python key "class" is spelled cls here (Lean keyword). -/
structure Detection where
  cls : String
  confidence : ℚ
  bbox : ℤ × ℤ × ℤ × ℤ
  track_id : ℤ
  distance : Option ℚ
  distance_str : String
  side : String
  cx : ℤ
  cy : ℤ
  bbox_height : ℤ
deriving DecidableEq

/- ===== navigation_caption_from_detections (server.py lines 325-347) ===== -/

/-- Stable descending insertion by bbox_height: an element is placed before
the first strictly smaller key, matching Python sorted(key, reverse=True). -/
def insertDesc (d : Detection) : List Detection → List Detection
  | [] => [d]
  | x :: xs => if x.bbox_height ≤ d.bbox_height then d :: x :: xs
               else x :: insertDesc d xs

/-- Stable sort of detections by bbox_height descending. -/
def sortDesc : List Detection → List Detection
  | [] => []
  | d :: ds => insertDesc d (sortDesc ds)

/-- One phrase of the navigation caption for a single detection. -/
def navPhrase (det : Detection) : String :=
  let ds := strTrim det.distance_str
  if ds ≠ "" ∧ ds ≠ "?" then det.cls ++ " " ++ ds ++ " on your " ++ det.side
  else det.cls ++ " on your " ++ det.side

/-- navigation_caption_from_detections from server.py. -/
def navigation_caption_from_detections (detections : List Detection) : String :=
  if detections = [] then "I don't see clear obstacles right now."
  else
    "Navigation: " ++
      joinWith "; " (((sortDesc detections).take 4).map navPhrase) ++ "."

/- ===== qa_from_detections (server.py lines 386-433) ===== -/

/-- Descriptive-question keywords checked first in qa_from_detections. -/
def descriptiveCue (q : String) : Bool :=
  strContains q "what is here" || strContains q "what do you see" ||
  strContains q "what is around" || strContains q "describe"

/-- Counting keywords of qa_from_detections. -/
def countingCue (q : String) : Bool :=
  strContains q "how many" || strContains q "count" || strContains q "number of"

/-- Side-query keywords of qa_from_detections. -/
def sideCue (q : String) : Bool :=
  strContains q "left" || strContains q "right" || strContains q "front"

/-- Action-query keywords of qa_from_detections. -/
def actionCue (q : String) : Bool :=
  strContains q "doing" || strContains q "action" || strContains q "activity"

/-- The counting stoplist of qa_from_detections. -/
def qaStopwords : List (List Char) :=
  ["how".data, "many".data, "count".data, "of".data]

/-- First alphabetic word of the question not in the stoplist. -/
def findTargetWords : List (List Char) → Option (List Char)
  | [] => none
  | w :: ws =>
    if isAlphaWord w && !(qaStopwords.contains w) then some w
    else findTargetWords ws

/-- Target-noun extraction over the lowercased question. -/
def findTarget (q : String) : Option String :=
  (findTargetWords (splitWsAux [] q.data)).map (fun w => ⟨w⟩)

/-- Side-query answer branch of qa_from_detections. -/
def qaSideAnswer (detections : List Detection) : String :=
  let left := (detections.filter (fun d => d.side == "left")).map Detection.cls
  let center := (detections.filter (fun d => d.side == "center")).map Detection.cls
  let right := (detections.filter (fun d => d.side == "right")).map Detection.cls
  let parts :=
    (if left ≠ [] then ["On your left: " ++ joinWith ", " (dedupFirst [] left)] else []) ++
    (if center ≠ [] then ["In front: " ++ joinWith ", " (dedupFirst [] center)] else []) ++
    (if right ≠ [] then ["On your right: " ++ joinWith ", " (dedupFirst [] right)] else [])
  if parts = [] then "I don't have a clear side-based view yet."
  else joinWith "; " parts

/-- Action-query answer branch of qa_from_detections. -/
def qaActionAnswer (detections : List Detection) : String :=
  if (detections.filter (fun d => lowerStr d.cls == "person")) ≠ [] then
    "I can see people, but I cannot determine their exact action from detections alone."
  else
    "I cannot tell the action; I only see objects, no clear people detected."

/-- qa_from_detections from server.py: deterministic fallback query resolver.
The counting section falls through to later rules when no target is found,
exactly as the Python loop does. -/
def qa_from_detections (question : String) (detections : List Detection) : String :=
  if detections = [] then "I don't see anything clearly in view."
  else
    let q := lowerStr question
    if descriptiveCue q then
      "I see: " ++ joinWith ", " (dedupFirst [] (detections.map Detection.cls)) ++ "."
    else
      match (if countingCue q then findTarget q else none) with
      | some target =>
        "I can see " ++
          toString ((detections.filter
            (fun d => strContains (lowerStr d.cls) target)).length) ++
          " " ++ target ++ "(s)."
      | none =>
        if sideCue q then qaSideAnswer detections
        else if actionCue q then qaActionAnswer detections
        else navigation_caption_from_detections detections

/- ===== blip_qa outcome model and ask_question (server.py 216-239, 554-594) ===== -/

/-- Outcome of the BLIP-2 Q&A delegate: model missing, a generated answer,
or a runtime exception whose message is str(e)[:50]. -/
inductive BlipQA where
  | missing
  | ok (answer : String)
  | err (msg : String)
deriving DecidableEq

/-- blip_qa from server.py: never returns None; fixed sentinel when the model
is not loaded, a fixed error sentence on a runtime exception. -/
def blip_qa : BlipQA → String
  | BlipQA.missing => "Q&A unavailable - BLIP-2 model not loaded"
  | BlipQA.ok a => a
  | BlipQA.err m => "Unable to answer due to model error: " ++ m

/-- The answer-selection logic of the /question endpoint: fall back to
qa_from_detections only when the answer text contains "not loaded"
(blip_qa never returns None, so the `answer is None` test never fires). -/
def ask_question (outcome : BlipQA) (question : String)
    (detections : List Detection) : String :=
  let answer := blip_qa outcome
  if strContains (lowerStr answer) "not loaded" then
    qa_from_detections question detections
  else answer

/- ===== format_distance (server.py lines 165-174) ===== -/

/-- Python `int(x)` truncation toward zero on a rational. -/
def ratTrunc (x : ℚ) : ℤ :=
  if 0 ≤ x then ⌊x⌋ else ⌈x⌉

/-- format_distance from server.py. Decimal formatting rounds half up here;
the Python float formatting rounds half to even, but no tie value is ever
exercised by the properties below. -/
def format_distance (d : Option ℚ) : String :=
  match d with
  | none => "?"
  | some x =>
    if 10 ≤ x then toString (round x) ++ " m"
    else if 1 ≤ x then
      toString (round (10 * x) / 10) ++ "." ++ toString (round (10 * x) % 10) ++ " m"
    else toString (ratTrunc (x * 100)) ++ " cm"

/- ===== detect_wall_and_distance (server.py lines 246-323) ===== -/

/-- One probabilistic Hough line segment (x1, y1, x2, y2). -/
structure Seg where
  x1 : ℤ
  y1 : ℤ
  x2 : ℤ
  y2 : ℤ
deriving DecidableEq

/-- Near-vertical test of server.py: abs(x2 - x1) < 20. -/
def nearVertical (s : Seg) : Bool :=
  (s.x2 - s.x1).natAbs < 20

/-- Result record of detect_wall_and_distance. -/
structure WallInfo where
  detected : Bool
  distance : Option ℚ
  distance_str : String
  position : String
deriving DecidableEq

/-- Geometric part of detect_wall_and_distance (before the BLIP check),
given calibration k, frame height h, width w and the Hough segments
(none models cv2.HoughLinesP returning None). Returns
(wall_detected, wall_distance, wall_position). -/
def wall_geometric (k : ℚ) (h w : ℕ) (lines : Option (List Seg)) :
    Bool × Option ℚ × String :=
  match lines with
  | none => (false, none, "center")
  | some ls =>
    if 10 < ls.length then
      let region_height : ℕ := 2 * h / 3 - h / 3
      if 50 < region_height then
        let dist : Option ℚ := some (k / ((region_height : ℚ) + 1 / 1000000))
        let vertical := ls.filter nearVertical
        if 5 < vertical.length then
          let center_x : ℤ := (w : ℤ) / 2
          let sixth : ℤ := (w : ℤ) / 6
          let leftN := (vertical.filter
            (fun s => ((s.x1 + s.x2 : ℤ) : ℚ) / 2 < ((center_x - sixth : ℤ) : ℚ))).length
          let rightN := (vertical.filter
            (fun s => ((center_x + sixth : ℤ) : ℚ) < ((s.x1 + s.x2 : ℤ) : ℚ) / 2)).length
          let pos := if rightN < leftN then "left"
                     else if leftN < rightN then "right" else "center"
          (true, dist, pos)
        else (false, dist, "center")
      else (false, none, "center")
    else (false, none, "center")

/-- Does the caption text mention a wall or barrier (lowercased)? -/
def mentionsWall (c : String) : Bool :=
  strContains (lowerStr c) "wall" || strContains (lowerStr c) "barrier"

/-- Does the caption text mention closeness (lowercased)? -/
def mentionsClose (c : String) : Bool :=
  strContains (lowerStr c) "close" || strContains (lowerStr c) "near"

/-- The condition under which BLIP closeness overrides the distance:
wall_distance is None or greater than 2.0. -/
def distClampable (dist : Option ℚ) : Bool :=
  match dist with
  | none => true
  | some d => decide (2 < d)

/-- BLIP corroboration step of detect_wall_and_distance: the caption
(none when blip_caption failed; the empty string is falsy in Python)
may force detection and clamp the distance to 1.5 m. -/
def wall_corroborate (blip : Option String) (st : Bool × Option ℚ × String) :
    Bool × Option ℚ × String :=
  match blip with
  | none => st
  | some c =>
    if !(c == "") && mentionsWall c then
      (true,
       (if mentionsClose c && distClampable st.2.1 then some (3 / 2) else st.2.1),
       (if st.1 then st.2.2 else "ahead"))
    else st

/-- detect_wall_and_distance from server.py: immediate fail-open without
calibration, geometric analysis, BLIP corroboration, and the final record
(0.0 is falsy in Python, hence the distance_str guard). -/
def detect_wall_and_distance (K : Option ℚ) (h w : ℕ)
    (lines : Option (List Seg)) (blip : Option String) : WallInfo :=
  match K with
  | none => { detected := false, distance := none, distance_str := "?", position := "unknown" }
  | some k =>
    let g := wall_geometric k h w lines
    let c := wall_corroborate blip g
    { detected := c.1,
      distance := c.2.1,
      distance_str :=
        match c.2.1 with
        | some dd => if dd = 0 then "?" else format_distance (some dd)
        | none => "?",
      position := c.2.2 }

/- ===== Wall-alert emission in analyze_frame (server.py lines 504-535) ===== -/

/-- WALL_ALERT_COOLDOWN from server.py. -/
def WALL_ALERT_COOLDOWN : ℚ := 3

/-- Wall alert object built by analyze_frame. -/
structure WallAlert where
  message : String
  distance : Option ℚ
  distance_str : String
  position : String
  urgent : Bool
deriving DecidableEq

/-- The alert-emission block of analyze_frame: given the previous
last_wall_alert timestamp, the current time and the wall info, produce the
optional alert and the new timestamp. The Python truthiness test
`if wall_distance and wall_distance < 3.0` is the d ≠ 0 conjunct. -/
def wall_alert_step (last_wall_alert now : ℚ) (info : WallInfo) :
    Option WallAlert × ℚ :=
  if info.detected = true ∧ WALL_ALERT_COOLDOWN ≤ now - last_wall_alert then
    match info.distance with
    | some d =>
      if d ≠ 0 ∧ d < 3 then
        (some { message :=
                  if d < 1 then
                    "⚠️ WALL VERY CLOSE! " ++ info.distance_str ++
                      " ahead on your " ++ info.position ++ ". Stop immediately!"
                  else if d < 2 then
                    "⚠️ Wall detected " ++ info.distance_str ++
                      " ahead on your " ++ info.position ++ ". Slow down."
                  else
                    "Wall ahead " ++ info.distance_str ++ " on your " ++
                      info.position ++ ".",
                distance := some d,
                distance_str := info.distance_str,
                position := info.position,
                urgent := decide (d < 3 / 2) }, now)
      else
        (some { message := "Wall detected ahead on your " ++ info.position ++ ".",
                distance := some d,
                distance_str := info.distance_str,
                position := info.position,
                urgent := false }, now)
    | none =>
      (some { message := "Wall detected ahead on your " ++ info.position ++ ".",
              distance := none,
              distance_str := info.distance_str,
              position := info.position,
              urgent := false }, now)
  else (none, last_wall_alert)

/- ===== Caption throttle in analyze_frame (server.py lines 489-493) ===== -/

/-- CAPTION_INTERVAL from server.py. -/
def CAPTION_INTERVAL : ℚ := 5

/-- The caption-throttle block of analyze_frame: blip is the result a
blip_caption call would return (none on failure/unavailability). Returns
(caption text used, new last_caption_time, whether the captioner was
invoked). The timestamp is set whenever the interval has elapsed,
regardless of whether the captioner produced text. -/
def caption_step (last_caption_time now : ℚ) (blip : Option String) :
    Option String × ℚ × Bool :=
  if CAPTION_INTERVAL < now - last_caption_time then (blip, now, true)
  else (none, last_caption_time, false)

/- ===== Calibration store (server.py lines 143-155, 596-671) ===== -/

/-- best_h loop of the /calibrate endpoint over the detected bbox heights. -/
def best_height (heights : List ℤ) : ℤ :=
  heights.foldl (fun b x => if b < x then x else b) 0

/-- The /calibrate endpoint logic: given the current in-memory K, the
requested distance_m and the detected bbox heights, return the response K
(none for the NoObjectDetected error) and the new in-memory K. The
distance_m value is used unvalidated, exactly as in server.py. -/
def calibrate_step (K : Option ℚ) (dist_m : ℚ) (heights : List ℤ) :
    Option ℚ × Option ℚ :=
  let bh := best_height heights
  if bh ≤ 0 then (none, K)
  else (some (dist_m * (bh : ℚ)), some (dist_m * (bh : ℚ)))

/-- load_calib_K: returns the persisted value, or none for a missing or
corrupt store. The store parameter is the parsed "K" entry. -/
def load_calib_K (store : Option ℚ) : Option ℚ :=
  store

/-- The /reset_calib endpoint: clears the in-memory K. -/
def reset_calib (_K : Option ℚ) : Option ℚ :=
  none

/-- States of the in-memory calibration K reachable from a persisted store
by load, positive-distance calibrate requests, and reset. -/
inductive CalibReachable (store : Option ℚ) : Option ℚ → Prop where
  | load : CalibReachable store (load_calib_K store)
  | calib (s : Option ℚ) (d : ℚ) (hs : List ℤ) (hd : 0 < d)
      (h : CalibReachable store s) : CalibReachable store (calibrate_step s d hs).2
  | reset (s : Option ℚ) (h : CalibReachable store s) :
      CalibReachable store (reset_calib s)

/- ===== Reader cache (server.py lines 107-122, 673-689) ===== -/

/-- Lookup in the reader cache keyed by the language tuple. -/
def assocFind (cache : List (List String × ℕ)) (key : List String) : Option ℕ :=
  match cache with
  | [] => none
  | (k2, v) :: rest => if k2 = key then some v else assocFind rest key

/-- get_ocr_reader from server.py: cached hit, or attempted construction
(the construct argument models easyocr.Reader: none = raised). Returns
(reader, new cache, whether construction was attempted). -/
def get_ocr_reader (construct : List String → Option ℕ)
    (cache : List (List String × ℕ)) (langs : List String) :
    Option ℕ × List (List String × ℕ) × Bool :=
  match assocFind cache langs with
  | some r => (some r, cache, false)
  | none =>
    match construct langs with
    | some r => (some r, cache ++ [(langs, r)], true)
    | none => (none, cache, true)

/-- Outcome the OCR endpoints return for the reader-selection part. -/
inductive OcrOutcome where
  | ok (reader : ℕ)
  | unavailable (langs : List String)
deriving DecidableEq

/-- The reader-selection part of the /ocr endpoint: truncate the requested
languages to at most 3 codes, get or construct the reader, and map a
missing reader to the deterministic 503 unavailable response. -/
def ocr_request (construct : List String → Option ℕ)
    (cache : List (List String × ℕ)) (langs : List String) :
    OcrOutcome × List (List String × ℕ) × Bool :=
  let l3 := langs.take 3
  let res := get_ocr_reader construct cache l3
  (match res.1 with
   | some r => OcrOutcome.ok r
   | none => OcrOutcome.unavailable l3, res.2.1, res.2.2)

/- ===== Concrete inputs used by witnesses and counterexamples ===== -/

/-- A dog detection with bbox height 110. -/
def dogDet : Detection :=
  { cls := "dog", confidence := 9 / 10, bbox := (0, 0, 10, 110), track_id := 1,
    distance := none, distance_str := "?", side := "center",
    cx := 5, cy := 55, bbox_height := 110 }

/-- A cat detection with bbox height 60. -/
def catDet : Detection :=
  { cls := "cat", confidence := 8 / 10, bbox := (0, 0, 10, 60), track_id := 2,
    distance := none, distance_str := "?", side := "left",
    cx := 5, cy := 30, bbox_height := 60 }

/-- A perfectly vertical Hough segment. -/
def vSeg : Seg := { x1 := 0, y1 := 0, x2 := 0, y2 := 100 }

/-- Exactly 10 vertical segments: at the boundary of the line-count test. -/
def segs10 : List Seg := List.replicate 10 vSeg

/-- Eleven vertical segments: enough to pass the strict line-count test. -/
def segs11 : List Seg := List.replicate 11 vSeg

/-- A reader constructor that only succeeds for the English language set. -/
def construct0 : List String → Option ℕ :=
  fun l => if l = ["en"] then some 7 else none

/-- A wall-info record for a detected hazard 1.0 m ahead. -/
def cInfo : WallInfo :=
  { detected := true, distance := some 1, distance_str := "1.0 m",
    position := "center" }

/- ========================= Theorems ========================= -/

/-- C10: for every question, the deterministic fallback resolver answers the
fixed sentence "I don't see anything clearly in view." when the detection
list is empty, before any cue rule is evaluated. -/
theorem c10_empty_detections (question : String) :
    qa_from_detections question [] = "I don't see anything clearly in view." :=
  rfl

/-- C1 counterexample: the question "how many dogs" against detections
[dog, dog, cat] yields "I can see 0 dogs(s)." (the extracted token is
"dogs", which is not a substring of the class "dog"), not the
"I can see 2 dog(s)." the claim asserts. -/
theorem c1_counterexample :
    qa_from_detections "how many dogs" [dogDet, dogDet, catDet] =
        "I can see 0 dogs(s)." ∧
    qa_from_detections "how many dogs" [dogDet, dogDet, catDet] ≠
        "I can see 2 dog(s)." := by
  constructor
  · decide
  · decide

/-- C1 amended: for a nonempty detection list, a question with a counting
cue and no descriptive cue, whose first alphabetic non-stoplist token is
target, the resolver counts the detections whose lowercased class contains
target as a substring; on "how many dogs" vs [dog, dog, cat] this gives
"I can see 0 dogs(s)." rather than the "I can see 2 dog(s)." of the claim. -/
theorem c1_amended (question : String) (dets : List Detection) (target : String)
    (hne : dets ≠ [])
    (hdesc : descriptiveCue (lowerStr question) = false)
    (hcue : countingCue (lowerStr question) = true)
    (ht : findTarget (lowerStr question) = some target) :
    qa_from_detections question dets =
      "I can see " ++
        toString ((dets.filter
          (fun d => strContains (lowerStr d.cls) target)).length) ++
        " " ++ target ++ "(s)." := by
  unfold qa_from_detections
  rw [if_neg hne]
  simp only [hdesc, hcue, if_true, Bool.false_eq_true, if_false, ht]

/-- C1 amended witness: the amended rule evaluated at the spec's own
example input. -/
theorem c1_amended_witness :
    qa_from_detections "how many dogs" [dogDet, dogDet, catDet] =
      "I can see " ++
        toString (([dogDet, dogDet, catDet].filter
          (fun d => strContains (lowerStr d.cls) "dogs")).length) ++
        " " ++ "dogs" ++ "(s)." :=
  c1_amended "how many dogs" [dogDet, dogDet, catDet] "dogs"
    (by decide) (by decide) (by decide) (by decide)

/-- C4 counterexample: a runtime failure of the generative Q&A delegate
(message without "not loaded") is answered with the fixed error sentence,
not with the deterministic fallback resolver's answer. -/
theorem c4_counterexample :
    ask_question (BlipQA.err "cuda out of memory") "how many dogs"
        [dogDet, dogDet, catDet] =
      "Unable to answer due to model error: cuda out of memory" ∧
    ask_question (BlipQA.err "cuda out of memory") "how many dogs"
        [dogDet, dogDet, catDet] ≠
      qa_from_detections "how many dogs" [dogDet, dogDet, catDet] := by
  constructor
  · decide
  · decide

/-- C4 amended: when the delegate failed to initialize (its sentinel
contains "not loaded") the deterministic fallback answer is returned; when
it fails while running, a fixed error-message answer is returned instead
(still a successful answer, but not the fallback), provided the error text
does not itself contain "not loaded". -/
theorem c4_amended (question : String) (dets : List Detection) (m : String)
    (hm : strContains
      (lowerStr ("Unable to answer due to model error: " ++ m)) "not loaded" = false) :
    ask_question BlipQA.missing question dets = qa_from_detections question dets ∧
    ask_question (BlipQA.err m) question dets =
      "Unable to answer due to model error: " ++ m := by
  constructor
  · unfold ask_question blip_qa
    rw [if_pos (by decide)]
  · unfold ask_question blip_qa
    rw [if_neg (by rw [hm]; exact Bool.false_ne_true)]

/-- C4 amended witness: both branches at a concrete question, detection
list and error message. -/
theorem c4_amended_witness :
    ask_question BlipQA.missing "how many dogs" [dogDet, dogDet, catDet] =
      qa_from_detections "how many dogs" [dogDet, dogDet, catDet] ∧
    ask_question (BlipQA.err "cuda oom") "how many dogs" [dogDet, dogDet, catDet] =
      "Unable to answer due to model error: " ++ "cuda oom" :=
  c4_amended "how many dogs" [dogDet, dogDet, catDet] "cuda oom" (by decide)

/-- C2 counterexample: a wall hazard with distance 3.5 m (at least 3.0 m),
detected and past the cooldown, still produces a non-null wall alert. -/
theorem c2_counterexample :
    (wall_alert_step 0 10
      { detected := true, distance := some (7 / 2), distance_str := "3.5 m",
        position := "center" }).1 ≠ none := by
  norm_num [wall_alert_step, WALL_ALERT_COOLDOWN]
  exact fun hx => Option.noConfusion hx

/-- C2 amended: with detected = true, a non-null distance of at least 3.0 m
and the cooldown elapsed, analyze_frame produces the generic non-urgent
"Wall detected ahead" alert (not no alert), and resets the cooldown
timestamp. -/
theorem c2_amended (last now : ℚ) (info : WallInfo) (d : ℚ)
    (hd : info.detected = true) (hdist : info.distance = some d)
    (h3 : 3 ≤ d) (hc : WALL_ALERT_COOLDOWN ≤ now - last) :
    wall_alert_step last now info =
      (some { message := "Wall detected ahead on your " ++ info.position ++ ".",
              distance := some d, distance_str := info.distance_str,
              position := info.position, urgent := false }, now) := by
  have hnot : ¬ (d ≠ 0 ∧ d < 3) := fun hx => absurd hx.2 (not_lt.mpr h3)
  unfold wall_alert_step
  rw [if_pos ⟨hd, hc⟩]
  simp only [hdist]
  rw [if_neg hnot]

/-- C2 amended witness: the generic far-wall alert at distance 3.5 m. -/
theorem c2_amended_witness :
    wall_alert_step 0 10
        { detected := true, distance := some (7 / 2), distance_str := "3.5 m",
          position := "center" } =
      (some { message := "Wall detected ahead on your " ++ "center" ++ ".",
              distance := some (7 / 2), distance_str := "3.5 m",
              position := "center", urgent := false }, 10) :=
  c2_amended 0 10
    { detected := true, distance := some (7 / 2), distance_str := "3.5 m",
      position := "center" }
    (7 / 2) rfl rfl (by norm_num) (by norm_num [WALL_ALERT_COOLDOWN])

/-- C3 counterexample: with the interval elapsed and the captioner failing
(no caption text), the throttle timestamp is still overwritten with the
current time, and a call 2 s later does not attempt generation — contrary
to the claim that the timestamp keeps its previous value. -/
theorem c3_counterexample :
    (caption_step 0 10 none).2.1 = 10 ∧ ¬ (caption_step 0 10 none).2.1 = 0 ∧
    (caption_step (caption_step 0 10 none).2.1 12 none).2.2 = false := by
  norm_num [caption_step, CAPTION_INTERVAL]

/-- C3 amended: the throttle timestamp is overwritten with the current time
on every analyzeFrame call where the interval has elapsed, whether or not
the captioner produced text; when the interval has not elapsed, no
generation is attempted and the timestamp is unchanged. -/
theorem c3_amended (last now : ℚ) (blip : Option String) :
    (CAPTION_INTERVAL < now - last → caption_step last now blip = (blip, now, true)) ∧
    (¬ CAPTION_INTERVAL < now - last → caption_step last now blip = (none, last, false)) :=
  ⟨fun hx => by unfold caption_step; rw [if_pos hx],
   fun hx => by unfold caption_step; rw [if_neg hx]⟩

/-- C3 amended witness: a failed elapsed attempt at t = 10 moves the
timestamp to 10, and the call at t = 12 skips generation. -/
theorem c3_amended_witness :
    caption_step 0 10 none = (none, 10, true) ∧
    caption_step 10 12 none = (none, 10, false) :=
  ⟨(c3_amended 0 10 none).1 (by norm_num [CAPTION_INTERVAL]),
   (c3_amended 10 12 none).2 (by norm_num [CAPTION_INTERVAL])⟩

/-- C5 counterexample: calibrate succeeds on knownDistanceMeters = -2 with
best bbox height 100 px and installs K = -200, which is not positive. -/
theorem c5_counterexample :
    (calibrate_step none (-2) [100]).1 = some (-200) ∧
    (calibrate_step none (-2) [100]).2 = some (-200) ∧
    ¬ (0 < (-200 : ℚ)) := by
  norm_num [calibrate_step, best_height]

/-- C5 amended: when the persisted store holds only positive values and
every calibrate request uses a positive knownDistanceMeters, every state
reachable by load, calibrate and reset has K positive whenever non-null. -/
theorem c5_amended (store s : Option ℚ)
    (hstore : ∀ k, store = some k → 0 < k)
    (hr : CalibReachable store s) :
    ∀ k, s = some k → 0 < k := by
  induction hr with
  | load => exact hstore
  | calib s' d hs hd _ ih =>
    intro k hk
    unfold calibrate_step at hk
    by_cases hb : best_height hs ≤ 0
    · rw [if_pos hb] at hk
      exact ih k hk
    · rw [if_neg hb] at hk
      simp only at hk
      have hbpos : (0 : ℤ) < best_height hs := lt_of_not_le hb
      have hk2 : d * ((best_height hs : ℤ) : ℚ) = k := Option.some.inj hk
      rw [← hk2]
      exact mul_pos hd (by exact_mod_cast hbpos)
  | reset s' _ _ =>
    intro k hk
    exact absurd hk (by simp [reset_calib])

/-- C5 amended witness: calibrating from an empty store with distance 2 m
and best height 100 px reaches K = 200, which is positive. -/
theorem c5_amended_witness :
    (calibrate_step none 2 [100]).2 = some 200 ∧ (0 : ℚ) < 200 :=
  ⟨by norm_num [calibrate_step, best_height],
   c5_amended none (calibrate_step none 2 [100]).2
     (fun k hk => Option.noConfusion hk)
     (CalibReachable.calib none 2 [100] (by norm_num) CalibReachable.load)
     200 (by norm_num [calibrate_step, best_height])⟩

/-- A detected hazard past the cooldown always yields an alert and the new
timestamp equals the call time. -/
theorem wall_step_emits (last now : ℚ) (i : WallInfo)
    (hd : i.detected = true) (hc : WALL_ALERT_COOLDOWN ≤ now - last) :
    (wall_alert_step last now i).1 ≠ none ∧ (wall_alert_step last now i).2 = now := by
  unfold wall_alert_step
  rw [if_pos ⟨hd, hc⟩]
  split
  · split_ifs <;> exact ⟨fun hy => Option.noConfusion hy, rfl⟩
  · exact ⟨fun hy => Option.noConfusion hy, rfl⟩

/-- Within the cooldown no alert is produced and the timestamp is kept. -/
theorem wall_step_silent (last now : ℚ) (i : WallInfo)
    (hc : now - last < WALL_ALERT_COOLDOWN) :
    wall_alert_step last now i = (none, last) := by
  unfold wall_alert_step
  rw [if_neg (fun hx => absurd hx.2 (not_le.mpr hc))]

/-- C7: two hazard detections within 3.0 s produce exactly one alert (the
first emits, the second is silenced); every emitted alert resets the
cooldown timestamp to the call time; and a hazard detection more than
3.0 s after an emitted alert produces a new alert. -/
theorem c7_cooldown (lastT t1 t2 : ℚ) (i1 i2 : WallInfo) :
    (i1.detected = true → WALL_ALERT_COOLDOWN ≤ t1 - lastT →
      t2 - t1 < WALL_ALERT_COOLDOWN →
      (wall_alert_step lastT t1 i1).1 ≠ none ∧
        (wall_alert_step (wall_alert_step lastT t1 i1).2 t2 i2).1 = none) ∧
    ((wall_alert_step lastT t1 i1).1 ≠ none → (wall_alert_step lastT t1 i1).2 = t1) ∧
    (i1.detected = true → WALL_ALERT_COOLDOWN ≤ t1 - lastT →
      i2.detected = true → WALL_ALERT_COOLDOWN < t2 - t1 →
      (wall_alert_step (wall_alert_step lastT t1 i1).2 t2 i2).1 ≠ none) := by
  refine ⟨?_, ?_, ?_⟩
  · intro hd1 hc1 hc2
    obtain ⟨hem, hts⟩ := wall_step_emits lastT t1 i1 hd1 hc1
    refine ⟨hem, ?_⟩
    rw [hts]
    exact congrArg Prod.fst (wall_step_silent t1 t2 i2 hc2)
  · intro hem
    by_cases hc : i1.detected = true ∧ WALL_ALERT_COOLDOWN ≤ t1 - lastT
    · exact (wall_step_emits lastT t1 i1 hc.1 hc.2).2
    · exfalso
      apply hem
      unfold wall_alert_step
      rw [if_neg hc]
  · intro hd1 hc1 hd2 hc2
    rw [(wall_step_emits lastT t1 i1 hd1 hc1).2]
    exact (wall_step_emits t1 t2 i2 hd2 (le_of_lt hc2)).1

/-- C7 witness: alerts at t = 5 (cooldown elapsed from 0), silence at
t = 6, timestamp reset to 5, and a fresh alert at t = 9. -/
theorem c7_cooldown_witness :
    ((wall_alert_step 0 5 cInfo).1 ≠ none ∧
      (wall_alert_step (wall_alert_step 0 5 cInfo).2 6 cInfo).1 = none) ∧
    (wall_alert_step 0 5 cInfo).2 = 5 ∧
    (wall_alert_step (wall_alert_step 0 5 cInfo).2 9 cInfo).1 ≠ none :=
  ⟨(c7_cooldown 0 5 6 cInfo cInfo).1 rfl
      (by norm_num [WALL_ALERT_COOLDOWN]) (by norm_num [WALL_ALERT_COOLDOWN]),
   (c7_cooldown 0 5 6 cInfo cInfo).2.1
      ((c7_cooldown 0 5 6 cInfo cInfo).1 rfl
        (by norm_num [WALL_ALERT_COOLDOWN]) (by norm_num [WALL_ALERT_COOLDOWN])).1,
   (c7_cooldown 0 5 9 cInfo cInfo).2.2 rfl
      (by norm_num [WALL_ALERT_COOLDOWN]) rfl (by norm_num [WALL_ALERT_COOLDOWN])⟩

/-- C6 counterexample: a frame with exactly 10 segments, all near-vertical,
satisfies the claim's condition (at least 10 segments and more than 5
near-vertical) yet the geometric analysis reports detected = false, since
the code requires strictly more than 10 segments. -/
theorem c6_counterexample :
    ¬ (((detect_wall_and_distance (some 100) 300 400 (some segs10) none).detected = true) ↔
        (10 ≤ segs10.length ∧ 5 < (segs10.filter nearVertical).length)) := by
  decide

/-- C6 amended: with calibration set and no caption text, the wall analysis
reports detected = true exactly when the detector returned strictly more
than 10 segments, the central-region height 2h/3 - h/3 exceeds 50 px, and
more than 5 segments are near-vertical (horizontal delta < 20 px). -/
theorem c6_amended (k : ℚ) (h w : ℕ) (lines : Option (List Seg)) :
    (detect_wall_and_distance (some k) h w lines none).detected = true ↔
      ∃ ls, lines = some ls ∧ 10 < ls.length ∧ 50 < 2 * h / 3 - h / 3 ∧
        5 < (ls.filter nearVertical).length := by
  show (wall_geometric k h w lines).1 = true ↔ _
  cases lines with
  | none => simp [wall_geometric]
  | some ls =>
    by_cases h1 : 10 < ls.length
    · by_cases h2 : 50 < 2 * h / 3 - h / 3
      · by_cases h3 : 5 < (ls.filter nearVertical).length
        · simp [wall_geometric, h1, h2, h3]
        · simp [wall_geometric, h1, h2, h3]
      · simp [wall_geometric, h1, h2]
    · simp [wall_geometric, h1]

/-- Textual corroboration never turns geometric detection off. -/
theorem corroborate_detected (blip : Option String) (st : Bool × Option ℚ × String)
    (hst : st.1 = true) : (wall_corroborate blip st).1 = true := by
  cases blip with
  | none => exact hst
  | some c =>
    simp only [wall_corroborate]
    split_ifs <;> first | rfl | exact hst

/-- Textual corroboration never raises a non-null distance estimate. -/
theorem corroborate_distance (blip : Option String) (st : Bool × Option ℚ × String)
    (dg df : ℚ) (h1 : st.2.1 = some dg)
    (h2 : (wall_corroborate blip st).2.1 = some df) : df ≤ dg := by
  cases blip with
  | none =>
    have hg : some dg = some df := by rw [← h1]; exact h2
    exact le_of_eq (Option.some.inj hg).symm
  | some c =>
    simp only [wall_corroborate] at h2
    by_cases hw : (!(c == "") && mentionsWall c) = true
    · rw [if_pos hw] at h2
      by_cases hcl : (mentionsClose c && distClampable st.2.1) = true
      · rw [if_pos hcl] at h2
        have hfar : distClampable st.2.1 = true := (Bool.and_eq_true _ _ ▸ hcl).2
        rw [h1] at hfar
        simp only [distClampable] at hfar
        have hdg : 2 < dg := of_decide_eq_true hfar
        have hdf : some ((3 : ℚ) / 2) = some df := h2
        rw [← Option.some.inj hdf]
        linarith
      · rw [if_neg hcl] at h2
        have hg : some dg = some df := by rw [← h1]; exact h2
        exact le_of_eq (Option.some.inj hg).symm
    · rw [if_neg hw] at h2
      have hg : some dg = some df := by rw [← h1]; exact h2
      exact le_of_eq (Option.some.inj hg).symm

/-- C8: textual evidence is monotone over the geometric result — if the
geometric analysis (no caption) detects a wall then the corroborated
result detects it, and the corroborated distance never exceeds a non-null
geometric distance estimate. -/
theorem c8_monotone (k : ℚ) (h w : ℕ) (lines : Option (List Seg))
    (blip : Option String) :
    ((detect_wall_and_distance (some k) h w lines none).detected = true →
      (detect_wall_and_distance (some k) h w lines blip).detected = true) ∧
    (∀ dg df : ℚ,
      (detect_wall_and_distance (some k) h w lines none).distance = some dg →
      (detect_wall_and_distance (some k) h w lines blip).distance = some df →
      df ≤ dg) := by
  constructor
  · intro hgeo
    exact corroborate_detected blip (wall_geometric k h w lines) hgeo
  · intro dg df hg hf
    exact corroborate_distance blip (wall_geometric k h w lines) dg df hg hf

/-- C8 witness: eleven vertical segments give a geometric detection at
about 3 m; a caption mentioning a near wall keeps detected = true and
clamps the distance down to 1.5 m, which is at most the geometric 3 m. -/
theorem c8_monotone_witness :
    (detect_wall_and_distance (some 300) 300 400 (some segs11) (some "wall near")).detected
      = true ∧
    (3 / 2 : ℚ) ≤ 300000000 / 100000001 :=
  ⟨(c8_monotone 300 300 400 (some segs11) (some "wall near")).1 (by decide),
   (c8_monotone 300 300 400 (some segs11) (some "wall near")).2
     (300000000 / 100000001) (3 / 2)
     (by norm_num [detect_wall_and_distance, wall_geometric, wall_corroborate,
           segs11, vSeg, nearVertical])
     (by
       have h1 : strContains (lowerStr "wall near") "wall" = true := by decide
       have h3 : strContains (lowerStr "wall near") "near" = true := by decide
       have h4 : ¬ ("wall near" = "") := by decide
       norm_num [detect_wall_and_distance, wall_geometric, wall_corroborate,
         segs11, vSeg, nearVertical, mentionsWall, mentionsClose, distClampable,
         h1, h3, h4])⟩

/-- Appending a fresh key to the cache makes it found. -/
theorem assocFind_append_self (cache : List (List String × ℕ))
    (key : List String) (v : ℕ) (h : assocFind cache key = none) :
    assocFind (cache ++ [(key, v)]) key = some v := by
  induction cache with
  | nil => simp [assocFind]
  | cons p rest ih =>
    obtain ⟨k2, v2⟩ := p
    simp only [assocFind] at h
    by_cases hk : k2 = key
    · rw [if_pos hk] at h
      exact absurd h (by simp)
    · rw [if_neg hk] at h
      simp only [List.cons_append, assocFind]
      rw [if_neg hk]
      exact ih h

/-- C9: a second OCR request for the same language list returns the same
reader from the cache without attempting construction, and a request whose
construction fails (and is not cached) yields the deterministic
unavailable outcome for the truncated language list. -/
theorem c9_reader_cache :
    (∀ (construct : List String → Option ℕ) (cache : List (List String × ℕ))
        (langs : List String) (r : ℕ),
        (ocr_request construct cache langs).1 = OcrOutcome.ok r →
        (ocr_request construct (ocr_request construct cache langs).2.1 langs).1 =
            OcrOutcome.ok r ∧
          (ocr_request construct (ocr_request construct cache langs).2.1 langs).2.2 =
            false) ∧
    (∀ (construct : List String → Option ℕ) (cache : List (List String × ℕ))
        (langs : List String),
        assocFind cache (langs.take 3) = none → construct (langs.take 3) = none →
        (ocr_request construct cache langs).1 =
          OcrOutcome.unavailable (langs.take 3)) := by
  constructor
  · intro construct cache langs r hx
    cases hfind : assocFind cache (langs.take 3) with
    | some r0 =>
      have hr : r0 = r := by
        simp [ocr_request, get_ocr_reader, hfind] at hx
        exact hx
      subst hr
      constructor <;> simp [ocr_request, get_ocr_reader, hfind]
    | none =>
      cases hcon : construct (langs.take 3) with
      | none =>
        exfalso
        simp [ocr_request, get_ocr_reader, hfind, hcon] at hx
      | some r0 =>
        have hr : r0 = r := by
          simp [ocr_request, get_ocr_reader, hfind, hcon] at hx
          exact hx
        subst hr
        have hfind2 : assocFind (cache ++ [(langs.take 3, r0)]) (langs.take 3) = some r0 :=
          assocFind_append_self cache (langs.take 3) r0 hfind
        constructor <;> simp [ocr_request, get_ocr_reader, hfind, hcon, hfind2]
  · intro construct cache langs h1 h2
    simp [ocr_request, get_ocr_reader, h1, h2]

/-- C9 witness: a constructor succeeding only on the English set — the
second request for it is served from the cache without construction, and a
failing set yields the unavailable outcome. -/
theorem c9_reader_cache_witness :
    ((ocr_request construct0 (ocr_request construct0 [] ["en"]).2.1 ["en"]).1 =
        OcrOutcome.ok 7 ∧
      (ocr_request construct0 (ocr_request construct0 [] ["en"]).2.1 ["en"]).2.2 =
        false) ∧
    (ocr_request construct0 [] ["zz"]).1 = OcrOutcome.unavailable ["zz"] :=
  ⟨c9_reader_cache.1 construct0 [] ["en"] 7 (by decide),
   c9_reader_cache.2 construct0 [] ["zz"] (by decide) (by decide)⟩

end VirtualEye
